import Mathlib

/-!
Shallow embedding of two source files of the issuing-treasury demo
application:

* the onboarding API route (the file exporting `handler`, with `onboard`
  and its Yup `validationSchema`), and
* the password rules of the registration page's Yup `validationSchema`
  (`src/pages/auth/register.tsx`).

External calls (session lookup, `stripe.accounts.update`,
`createAccountOnboardingUrl`) are modelled by an environment recording each
call's outcome (a value, or a thrown error); the handler's observable
behaviour is its HTTP response together with the ordered list of calls it
issues to the payments API.
-/

/-- A thrown JavaScript `Error`, with its `message` and `stack` text. -/
structure JsError where
  message : String
  stack : String
deriving Repr, DecidableEq

/-- Modelled from the spec: `TOS_ACCEPTANCE` is imported from
`src/utils/demo-helpers`, which is not among the supplied sources.  It is a
fixed terms-of-service acceptance record that never varies, so it is modelled
as a single fixed token. -/
def TOS_ACCEPTANCE : String := "TOS_ACCEPTANCE"

/-- The `individual.address` object of the demo-mode payload. -/
structure Address where
  line1 : String
  city : String
  state : String
  postal_code : String
  country : String
deriving Repr, DecidableEq

/-- The `individual.dob` object of the demo-mode payload. -/
structure Dob where
  day : Nat
  month : Nat
  year : Nat
deriving Repr, DecidableEq

/-- The `individual` object of the demo-mode payload. -/
structure Individual where
  address : Address
  dob : Dob
  email : String
  first_name : String
  last_name : String
  phone : String
deriving Repr, DecidableEq

/-- The `business_profile` object of a `Stripe.AccountUpdateParams`.
A key absent from the JavaScript object literal is `none`. -/
structure BusinessProfile where
  name : Option String := none
  mcc : Option String := none
  product_description : Option String := none
  url : Option String := none
deriving Repr, DecidableEq

/-- The `settings.card_issuing` object of the demo-mode payload. -/
structure CardIssuingSettings where
  tos_acceptance : String
deriving Repr, DecidableEq

/-- The `settings.treasury` object of the demo-mode payload. -/
structure TreasurySettings where
  tos_acceptance : String
deriving Repr, DecidableEq

/-- The `settings` object of the demo-mode payload. -/
structure AccountSettings where
  card_issuing : CardIssuingSettings
  treasury : TreasurySettings
deriving Repr, DecidableEq

/-- `Stripe.AccountUpdateParams` as used by the route.  A key absent from
the JavaScript object literal is `none`. -/
structure AccountUpdateParams where
  business_profile : BusinessProfile
  business_type : Option String := none
  individual : Option Individual := none
  tos_acceptance : Option String := none
  settings : Option AccountSettings := none
deriving Repr, DecidableEq

/-- The demo-mode `business_profile` literal of the spread: it has no
`name` key, only `mcc`, `product_description` and `url`. -/
def demoBusinessProfile : BusinessProfile :=
  { name := none
    mcc := some "5734"
    product_description := some "Some demo product"
    url := some "https://some-company.com" }

/-- The demo-mode `individual` literal (fixed placeholder identity data;
only `email` comes from the session). -/
def demoIndividual (email : String) : Individual :=
  { address := { line1 := "address_full_match"
                 city := "South San Francisco"
                 state := "CA"
                 postal_code := "94080"
                 country := "US" }
    dob := { day := 1, month := 1, year := 1901 }
    email := email
    first_name := "John"
    last_name := "Smith"
    phone := "0000000000" }

/-- The demo-mode `settings` literal: card-issuing and treasury
terms-of-service acceptances. -/
def demoSettings : AccountSettings :=
  { card_issuing := { tos_acceptance := TOS_ACCEPTANCE }
    treasury := { tos_acceptance := TOS_ACCEPTANCE } }

/-- The `onboardingData` object literal of `onboard`.  The demo-mode spread
comes after the initial business-profile key holding the submitted name, so
by JavaScript spread semantics its own `business_profile` key replaces the
one holding the submitted name.  The top-level `tos_acceptance` key is only
spread in when `skipOnboarding` is truthy (`undefined` is falsy). -/
def onboardingData (demo : Bool) (businessName : String) (skipOnboarding : Option Bool)
    (email : String) : AccountUpdateParams :=
  let base : AccountUpdateParams := { business_profile := { name := some businessName } }
  if demo then
    { base with
      business_type := some "individual"
      business_profile := demoBusinessProfile
      individual := some (demoIndividual email)
      tos_acceptance := if skipOnboarding.getD false then some TOS_ACCEPTANCE else none
      settings := some demoSettings }
  else
    base

/-- The route's Yup `validationSchema`, run with `abortEarly: false`: every
failing rule contributes its message to the collected list.
`Yup.string().required()` rejects a missing value and the empty string with
the configured message; `max(255)` fails with Yup's default message when the
string is longer than 255; the `skipOnboarding` key only exists in the schema
when demo mode is on, and there `Yup.boolean().required()` rejects a missing
value. -/
def validateOnboard (demo : Bool) (businessName : Option String)
    (skipOnboarding : Option Bool) : List String :=
  (match businessName with
   | none => ["Business name is required"]
   | some s =>
     (if 255 < s.length then ["businessName must be at most 255 characters"] else []) ++
     (if s = "" then ["Business name is required"] else [])) ++
  (if demo then
     (match skipOnboarding with
      | none => ["Skip onboarding choice required"]
      | some _ => [])
   else [])

/-- Yup raises one `ValidationError` holding all collected failures; its
`message` is the single failure's message, or the count of failures when
there is more than one. -/
def aggregateMessage (errors : List String) : String :=
  if 1 < errors.length then toString errors.length ++ " errors occurred"
  else errors.headD ""

/-- The request body destructured by `onboard`:
`businessName: string; skipOnboarding?: boolean`, either one possibly absent
at runtime. -/
structure RequestBody where
  businessName : Option String := none
  skipOnboarding : Option Bool := none
deriving Repr, DecidableEq

/-- The HTTP methods distinguished by the route (the `switch` has a single
`POST` case and a default). -/
inductive Method where
  | POST
  | GET
  | PUT
  | DELETE
deriving Repr, DecidableEq

/-- An incoming request: its method and its parsed JSON body. -/
structure Request where
  method : Method
  body : RequestBody
deriving Repr, DecidableEq

/-- The server-side session: the authenticated user's email and the linked
connected-account identifier. -/
structure Session where
  email : String
  accountId : String
deriving Repr, DecidableEq

/-- Outcomes of the awaited external calls — the session lookup
(`getSessionForServerSide`), `stripe.accounts.update`, and
`createAccountOnboardingUrl` — each either a value or a thrown error, plus
the process-wide `isDemoMode()` flag. -/
structure Env where
  demo : Bool
  session : Except JsError Session
  updateResult : Except JsError Unit
  onboardingUrlResult : Except JsError String

/-- The `error` member of the `apiResponse` envelope. -/
structure ApiError where
  message : String
  details : Option String := none
deriving Repr, DecidableEq

/-- The `data` member of the `apiResponse` envelope. -/
structure ResponseData where
  redirectUrl : String
deriving Repr, DecidableEq

/-- The `apiResponse` envelope: a success flag with optional data and
optional error members. -/
structure ApiResponseBody where
  success : Bool
  data : Option ResponseData := none
  error : Option ApiError := none
deriving Repr, DecidableEq

/-- An HTTP response: status code and JSON envelope. -/
structure HttpResponse where
  status : Nat
  body : ApiResponseBody
deriving Repr, DecidableEq

/-- A call issued to the external payments API. -/
inductive StripeCall where
  | accountUpdate (accountId : String) (params : AccountUpdateParams)
  | accountOnboardingUrl (accountId : String)
deriving Repr, DecidableEq

/-- The `onboard` function.  Returns the response it sends (or the error it
rethrows to `handler`), paired with the ordered list of payments-API calls it
issued.  The session lookup happens first; validation errors are caught
locally and answered with a 400; any other thrown error propagates. -/
def onboard (env : Env) (req : Request) :
    (Except JsError HttpResponse) × List StripeCall :=
  match env.session with
  | Except.error e => (Except.error e, [])
  | Except.ok session =>
    let businessName := req.body.businessName
    let skipOnboarding := req.body.skipOnboarding
    let errors := validateOnboard env.demo businessName skipOnboarding
    if errors = [] then
      -- validation passed, so `businessName` is necessarily present here
      let data := onboardingData env.demo (businessName.getD "") skipOnboarding session.email
      let updateCall := StripeCall.accountUpdate session.accountId data
      match env.updateResult with
      | Except.error e => (Except.error e, [updateCall])
      | Except.ok _ =>
        if env.demo && skipOnboarding.getD false then
          (Except.ok { status := 200
                       body := { success := true, data := some { redirectUrl := "/" } } },
           [updateCall])
        else
          match env.onboardingUrlResult with
          | Except.error e =>
            (Except.error e,
             [updateCall, StripeCall.accountOnboardingUrl session.accountId])
          | Except.ok onboardingUrl =>
            (Except.ok { status := 200
                         body := { success := true
                                   data := some { redirectUrl := onboardingUrl } } },
             [updateCall, StripeCall.accountOnboardingUrl session.accountId])
    else
      (Except.ok { status := 400
                   body := { success := false
                             error := some { message := aggregateMessage errors } } },
       [])

/-- The exported `handler`: dispatches `POST` to `onboard`, answers any other
method with a 400 "Bad Request", and catches any error thrown below it with a
500 carrying the error's message and stack. -/
def handler (env : Env) (req : Request) : HttpResponse × List StripeCall :=
  match req.method with
  | Method.POST =>
    match onboard env req with
    | (Except.ok resp, calls) => (resp, calls)
    | (Except.error e, calls) =>
      ({ status := 500
         body := { success := false
                   error := some { message := e.message, details := some e.stack } } },
       calls)
  | _ =>
    ({ status := 400
       body := { success := false, error := some { message := "Bad Request" } } },
     [])

/-- `getCharacterValidationError` from the registration page. -/
def getCharacterValidationError (str : String) : String :=
  "Your password must have at least 1 " ++ str ++ " character"

/-- The password rules of the registration page's Yup schema, with every
failing rule reporting its own message: `max(255)`, `required`, `min(8)`,
and the three `matches` rules.  The regex classes `[0-9]`, `[a-z]`, `[A-Z]`
are exactly the ASCII ranges checked by `Char.isDigit`, `Char.isLower`,
`Char.isUpper`. -/
def validatePassword (password : String) : List String :=
  (if 255 < password.length then ["password must be at most 255 characters"] else []) ++
  (if password = "" then ["Password is required"] else []) ++
  (if password.length < 8 then ["Password must have at least 8 characters"] else []) ++
  (if password.toList.any Char.isDigit then [] else [getCharacterValidationError "digit"]) ++
  (if password.toList.any Char.isLower then [] else [getCharacterValidationError "lowercase"]) ++
  (if password.toList.any Char.isUpper then [] else [getCharacterValidationError "uppercase"])

/-- A fixed session used to instantiate the theorems on concrete inputs. -/
def sampleSession : Session := { email := "user@example.com", accountId := "acct_123" }

/-- A concrete non-demo environment where every external call succeeds. -/
def envLive : Env :=
  { demo := false
    session := Except.ok sampleSession
    updateResult := Except.ok ()
    onboardingUrlResult := Except.ok "https://connect.example.com/setup" }

/-- A concrete demo-mode environment where every external call succeeds. -/
def envDemo : Env :=
  { demo := true
    session := Except.ok sampleSession
    updateResult := Except.ok ()
    onboardingUrlResult := Except.ok "https://connect.example.com/setup" }

/-- A concrete environment whose session lookup throws. -/
def envSessionThrows : Env :=
  { demo := false
    session := Except.error { message := "boom", stack := "Error: boom at onboard" }
    updateResult := Except.ok ()
    onboardingUrlResult := Except.ok "https://connect.example.com/setup" }

/-- Helper: a business name that is empty or longer than 255 characters makes
the collected validation-error list nonempty. -/
theorem validateOnboard_ne_nil (demo : Bool) (name : String) (sk : Option Bool)
    (hbad : name = "" ∨ 255 < name.length) :
    validateOnboard demo (some name) sk ≠ [] := by
  rcases hbad with h | h
  · subst h
    simp [validateOnboard]
  · simp [validateOnboard, h]

/-- Helper: the required-message is collected for an empty business name. -/
theorem required_mem_validateOnboard (demo : Bool) (sk : Option Bool) :
    "Business name is required" ∈ validateOnboard demo (some "") sk := by
  simp [validateOnboard]

/-- Helper: the max-length message is collected for an overlong name. -/
theorem max_mem_validateOnboard (demo : Bool) (name : String) (sk : Option Bool)
    (h : 255 < name.length) :
    "businessName must be at most 255 characters" ∈ validateOnboard demo (some name) sk := by
  simp [validateOnboard, h]

/-- Helper: in demo mode, a missing skip-onboarding flag contributes its
message to the collected list. -/
theorem skip_mem_validateOnboard (name : String) :
    "Skip onboarding choice required" ∈ validateOnboard true (some name) none := by
  simp [validateOnboard]

/-- C6: the registration password validation rejects "abc" with exactly the
three distinct messages for too-short, missing digit and missing uppercase,
and accepts "Abcdefg1" with no violations. -/
theorem C6_password_rules :
    validatePassword "abc" =
      ["Password must have at least 8 characters",
       getCharacterValidationError "digit",
       getCharacterValidationError "uppercase"] ∧
    "Password must have at least 8 characters" ≠ getCharacterValidationError "digit" ∧
    "Password must have at least 8 characters" ≠ getCharacterValidationError "uppercase" ∧
    getCharacterValidationError "digit" ≠ getCharacterValidationError "uppercase" ∧
    validatePassword "Abcdefg1" = [] := by
  refine ⟨by decide, by decide, by decide, by decide, by decide⟩

/-- C10: in demo mode the top-level terms-of-service acceptance is present in
the payload exactly when the skip-onboarding flag is `some true`, while the
card-issuing and treasury acceptances inside `settings` are present in every
demo-mode payload regardless of that flag. -/
theorem C10_demo_tos_fields (name : String) (skip : Option Bool) (email : String) :
    ((onboardingData true name skip email).tos_acceptance = some TOS_ACCEPTANCE ↔
        skip = some true) ∧
    (onboardingData true name skip email).settings = some demoSettings := by
  refine ⟨?_, rfl⟩
  cases skip with
  | none => simp [onboardingData]
  | some b => cases b <;> simp [onboardingData]

/-- C7: a request whose method is not POST is answered with a 400
"Bad Request" envelope, and no payments-API call is issued. -/
theorem C7_non_post (env : Env) (req : Request) (h : req.method ≠ Method.POST) :
    handler env req =
      ({ status := 400
         body := { success := false, error := some { message := "Bad Request" } } },
       []) := by
  obtain ⟨m, b⟩ := req
  cases m with
  | POST => exact absurd rfl h
  | GET => rfl
  | PUT => rfl
  | DELETE => rfl

/-- C7 witness: a GET request on a live environment gets the 400 envelope and
triggers no payments-API call. -/
theorem C7_witness :
    handler envLive { method := Method.GET, body := { businessName := some "ACME Corp" } } =
      ({ status := 400
         body := { success := false, error := some { message := "Bad Request" } } },
       []) :=
  C7_non_post envLive { method := Method.GET, body := { businessName := some "ACME Corp" } }
    (by decide)

/-- C8: any error thrown past the validation step (session lookup, payments
API update, onboarding-URL creation) is caught by `handler`, which answers
with a 500 envelope carrying the error's message and its stack text. -/
theorem C8_server_error (env : Env) (req : Request) (e : JsError)
    (hm : req.method = Method.POST)
    (he : (onboard env req).1 = Except.error e) :
    (handler env req).1 =
      { status := 500
        body := { success := false
                  error := some { message := e.message, details := some e.stack } } } := by
  obtain ⟨m, b⟩ := req
  dsimp only at hm
  subst hm
  rcases hob : onboard env { method := Method.POST, body := b } with ⟨r, calls⟩
  rw [hob] at he
  dsimp only at he
  subst he
  simp [handler, hob]

/-- C8 witness: a thrown session-lookup error surfaces as the 500 envelope
with its message and stack. -/
theorem C8_witness :
    (handler envSessionThrows
        { method := Method.POST, body := { businessName := some "ACME Corp" } }).1 =
      { status := 500
        body := { success := false
                  error := some { message := "boom"
                                  details := some "Error: boom at onboard" } } } :=
  C8_server_error envSessionThrows
    { method := Method.POST, body := { businessName := some "ACME Corp" } }
    { message := "boom", stack := "Error: boom at onboard" } rfl rfl

/-- C9: a POST request that fails validation is answered with a client error
before any payments-API call is issued: the call trace is empty and the
response is the 400 client error. -/
theorem C9_no_calls_on_validation_error (env : Env) (req : Request) (s : Session)
    (hm : req.method = Method.POST)
    (hs : env.session = Except.ok s)
    (hv : validateOnboard env.demo req.body.businessName req.body.skipOnboarding ≠ []) :
    (handler env req).2 = [] ∧
    (handler env req).1.status = 400 ∧
    (handler env req).1.body.success = false := by
  obtain ⟨m, b⟩ := req
  obtain ⟨demo, sess, upd, ourl⟩ := env
  dsimp only at hm hs hv
  subst hm hs
  refine ⟨?_, ?_, ?_⟩ <;> simp [handler, onboard, hv]

/-- C9 witness: a demo-mode POST with no business name is rejected with a 400
and no payments-API call. -/
theorem C9_witness :
    (handler envDemo { method := Method.POST, body := {} }).2 = [] ∧
    (handler envDemo { method := Method.POST, body := {} }).1.status = 400 ∧
    (handler envDemo { method := Method.POST, body := {} }).1.body.success = false :=
  C9_no_calls_on_validation_error envDemo { method := Method.POST, body := {} }
    sampleSession rfl rfl (by decide)

/-- C2: a valid POST in non-demo mode issues exactly one account update whose
payload holds only the business name (every other key absent), followed by
exactly one onboarding-URL request, and answers 200 with that URL as the
redirect target. -/
theorem C2_live_flow (env : Env) (req : Request) (s : Session) (name url : String)
    (hdemo : env.demo = false)
    (hm : req.method = Method.POST)
    (hs : env.session = Except.ok s)
    (hn : req.body.businessName = some name)
    (hv : validateOnboard env.demo req.body.businessName req.body.skipOnboarding = [])
    (hu : env.updateResult = Except.ok ())
    (ho : env.onboardingUrlResult = Except.ok url) :
    handler env req =
      ({ status := 200
         body := { success := true, data := some { redirectUrl := url } } },
       [StripeCall.accountUpdate s.accountId
          { business_profile := { name := some name
                                  mcc := none
                                  product_description := none
                                  url := none }
            business_type := none
            individual := none
            tos_acceptance := none
            settings := none },
        StripeCall.accountOnboardingUrl s.accountId]) := by
  obtain ⟨m, b⟩ := req
  obtain ⟨bn, sk⟩ := b
  obtain ⟨demo, sess, upd, ourl⟩ := env
  dsimp only at hdemo hm hs hn hv hu ho
  subst hdemo hm hs hn hu ho
  simp [handler, onboard, hv, onboardingData]

/-- C2 witness: a concrete valid live-mode request produces the
name-only update, the onboarding-URL request, and the 200 redirect. -/
theorem C2_witness :
    handler envLive { method := Method.POST, body := { businessName := some "ACME Corp" } } =
      ({ status := 200
         body := { success := true
                   data := some { redirectUrl := "https://connect.example.com/setup" } } },
       [StripeCall.accountUpdate "acct_123"
          { business_profile := { name := some "ACME Corp"
                                  mcc := none
                                  product_description := none
                                  url := none }
            business_type := none
            individual := none
            tos_acceptance := none
            settings := none },
        StripeCall.accountOnboardingUrl "acct_123"]) :=
  C2_live_flow envLive { method := Method.POST, body := { businessName := some "ACME Corp" } }
    sampleSession "ACME Corp" "https://connect.example.com/setup"
    rfl rfl rfl rfl (by decide) rfl rfl

/-- C3: a valid demo-mode POST with the skip-onboarding flag set issues one
account update carrying the fixed placeholder KYC fields and answers 200 with
the home page as redirect target, never requesting an onboarding URL. -/
theorem C3_demo_skip_flow (env : Env) (req : Request) (s : Session) (name : String)
    (hdemo : env.demo = true)
    (hm : req.method = Method.POST)
    (hs : env.session = Except.ok s)
    (hn : req.body.businessName = some name)
    (hskip : req.body.skipOnboarding = some true)
    (hv : validateOnboard env.demo req.body.businessName req.body.skipOnboarding = [])
    (hu : env.updateResult = Except.ok ()) :
    handler env req =
      ({ status := 200
         body := { success := true, data := some { redirectUrl := "/" } } },
       [StripeCall.accountUpdate s.accountId
          { business_profile := demoBusinessProfile
            business_type := some "individual"
            individual := some (demoIndividual s.email)
            tos_acceptance := some TOS_ACCEPTANCE
            settings := some demoSettings }]) := by
  obtain ⟨m, b⟩ := req
  obtain ⟨bn, sk⟩ := b
  obtain ⟨demo, sess, upd, ourl⟩ := env
  dsimp only at hdemo hm hs hn hskip hv hu
  subst hdemo hm hs hn hskip hu
  simp [handler, onboard, hv, onboardingData]

/-- C3 witness: a concrete valid demo-mode skip request produces the
placeholder-KYC update and the home-page redirect, with a one-element call
trace. -/
theorem C3_witness :
    handler envDemo
        { method := Method.POST
          body := { businessName := some "ACME Corp", skipOnboarding := some true } } =
      ({ status := 200
         body := { success := true, data := some { redirectUrl := "/" } } },
       [StripeCall.accountUpdate "acct_123"
          { business_profile := demoBusinessProfile
            business_type := some "individual"
            individual := some (demoIndividual "user@example.com")
            tos_acceptance := some TOS_ACCEPTANCE
            settings := some demoSettings }]) :=
  C3_demo_skip_flow envDemo
    { method := Method.POST
      body := { businessName := some "ACME Corp", skipOnboarding := some true } }
    sampleSession "ACME Corp" rfl rfl rfl rfl rfl (by decide) rfl

/-- C4: a POST whose business name is empty or longer than 255 characters is
answered with a 400 client error whose message is the Yup aggregate of the
full collected failure list, and that list holds every failing rule's
message (name failure, and in demo mode also a missing skip-onboarding
flag's), not only the first. -/
theorem C4_validation_errors (env : Env) (req : Request) (s : Session) (name : String)
    (hm : req.method = Method.POST)
    (hs : env.session = Except.ok s)
    (hn : req.body.businessName = some name)
    (hbad : name = "" ∨ 255 < name.length) :
    (handler env req).1.status = 400 ∧
    (handler env req).1.body.success = false ∧
    (handler env req).1.body.error =
      some { message :=
        aggregateMessage (validateOnboard env.demo (some name) req.body.skipOnboarding) } ∧
    (name = "" →
      "Business name is required" ∈
        validateOnboard env.demo (some name) req.body.skipOnboarding) ∧
    (255 < name.length →
      "businessName must be at most 255 characters" ∈
        validateOnboard env.demo (some name) req.body.skipOnboarding) ∧
    (env.demo = true → req.body.skipOnboarding = none →
      "Skip onboarding choice required" ∈
        validateOnboard env.demo (some name) req.body.skipOnboarding) := by
  obtain ⟨m, b⟩ := req
  obtain ⟨bn, sk⟩ := b
  obtain ⟨demo, sess, upd, ourl⟩ := env
  dsimp only at hm hs hn ⊢
  subst hm hs hn
  have hne : validateOnboard demo (some name) sk ≠ [] :=
    validateOnboard_ne_nil demo name sk hbad
  refine ⟨?_, ?_, ?_, ?_, ?_, ?_⟩
  · simp [handler, onboard, hne]
  · simp [handler, onboard, hne]
  · simp [handler, onboard, hne]
  · intro h
    subst h
    exact required_mem_validateOnboard demo sk
  · intro h
    exact max_mem_validateOnboard demo name sk h
  · intro hd hsk
    subst hd hsk
    exact skip_mem_validateOnboard name

/-- C4 witness: an empty business name in demo mode without the flag yields
the 400 envelope whose message aggregates both collected failures. -/
theorem C4_witness :
    (handler envDemo { method := Method.POST, body := { businessName := some "" } }).1.status
        = 400 ∧
    (handler envDemo { method := Method.POST, body := { businessName := some "" } }).1.body.success
        = false ∧
    (handler envDemo { method := Method.POST, body := { businessName := some "" } }).1.body.error
        = some { message := aggregateMessage (validateOnboard true (some "") none) } ∧
    ("" = "" → "Business name is required" ∈ validateOnboard true (some "") none) ∧
    (255 < "".length →
      "businessName must be at most 255 characters" ∈ validateOnboard true (some "") none) ∧
    (true = true → (none : Option Bool) = none →
      "Skip onboarding choice required" ∈ validateOnboard true (some "") none) :=
  C4_validation_errors envDemo { method := Method.POST, body := { businessName := some "" } }
    sampleSession "" rfl rfl rfl (Or.inl rfl)

/-- C5: in demo mode a POST omitting the skip-onboarding flag fails
validation and is answered with a client error; outside demo mode the flag is
not in the schema, so a request with a valid business name and no flag passes
validation. -/
theorem C5_skip_flag_required (env : Env) (req : Request) (s : Session) (name : String) :
    (env.demo = true → req.method = Method.POST → env.session = Except.ok s →
       req.body.skipOnboarding = none →
       validateOnboard env.demo req.body.businessName req.body.skipOnboarding ≠ [] ∧
       (handler env req).1.status = 400 ∧
       (handler env req).1.body.success = false) ∧
    (name ≠ "" → name.length ≤ 255 →
       validateOnboard false (some name) none = []) := by
  constructor
  · intro hdemo hm hs hsk
    obtain ⟨m, b⟩ := req
    obtain ⟨bn, sk⟩ := b
    obtain ⟨demo, sess, upd, ourl⟩ := env
    dsimp only at hdemo hm hs hsk ⊢
    subst hdemo hm hs hsk
    have hne : validateOnboard true bn none ≠ [] := by
      cases bn with
      | none => simp [validateOnboard]
      | some s => simp [validateOnboard]
    exact ⟨hne, by simp [handler, onboard, hne], by simp [handler, onboard, hne]⟩
  · intro h1 h2
    have h3 : ¬255 < name.length := Nat.not_lt.mpr h2
    simp [validateOnboard, h1, h3]

/-- C5 witness: the demo-mode request with no flag is rejected with a 400,
while the same body passes validation outside demo mode. -/
theorem C5_witness :
    (validateOnboard true none none ≠ [] ∧
     (handler envDemo { method := Method.POST, body := {} }).1.status = 400 ∧
     (handler envDemo { method := Method.POST, body := {} }).1.body.success = false) ∧
    validateOnboard false (some "ACME Corp") none = [] :=
  ⟨(C5_skip_flag_required envDemo { method := Method.POST, body := {} }
      sampleSession "ACME Corp").1 rfl rfl rfl rfl,
   (C5_skip_flag_required envDemo { method := Method.POST, body := {} }
      sampleSession "ACME Corp").2 (by decide) (by decide)⟩

/-- C1 counterexample: a demo-mode request that passes validation produces an
account-update payload whose business profile does not carry the submitted
business name at all — the demo spread's business profile replaces the one
holding the name — so the payload does not set the business name to the
submitted value in demo mode. -/
theorem C1_counterexample :
    validateOnboard true (some "ACME Corp") (some true) = [] ∧
    (onboard envDemo
        { method := Method.POST
          body := { businessName := some "ACME Corp", skipOnboarding := some true } }).2 =
      [StripeCall.accountUpdate "acct_123"
         (onboardingData true "ACME Corp" (some true) "user@example.com")] ∧
    (onboardingData true "ACME Corp" (some true) "user@example.com").business_profile.name ≠
      some "ACME Corp" := by
  refine ⟨by decide, by decide, by decide⟩

/-- C1 (amended): for every request that passes validation the first
payments-API call is the account update; outside demo mode its payload sets
the business name to the submitted value and nothing else, while in demo mode
the fixed placeholder business profile replaces (rather than augments) the
profile holding the submitted name, alongside the placeholder business type,
individual identity fields, settings acceptances and — only when onboarding
is skipped — the top-level terms-of-service acceptance. -/
theorem C1_amended_payload (env : Env) (req : Request) (s : Session) (name : String)
    (hm : req.method = Method.POST)
    (hs : env.session = Except.ok s)
    (hn : req.body.businessName = some name)
    (hv : validateOnboard env.demo req.body.businessName req.body.skipOnboarding = []) :
    (handler env req).2.head? =
      some (StripeCall.accountUpdate s.accountId
        (onboardingData env.demo name req.body.skipOnboarding s.email)) ∧
    (env.demo = false →
      onboardingData env.demo name req.body.skipOnboarding s.email =
        { business_profile := { name := some name } }) ∧
    (env.demo = true →
      onboardingData env.demo name req.body.skipOnboarding s.email =
        { business_profile := demoBusinessProfile
          business_type := some "individual"
          individual := some (demoIndividual s.email)
          tos_acceptance :=
            if req.body.skipOnboarding.getD false then some TOS_ACCEPTANCE else none
          settings := some demoSettings }) := by
  obtain ⟨m, b⟩ := req
  obtain ⟨bn, sk⟩ := b
  obtain ⟨demo, sess, upd, ourl⟩ := env
  dsimp only at hm hs hn hv ⊢
  subst hm hs hn
  refine ⟨?_, ?_, ?_⟩
  · cases upd with
    | error e => simp [handler, onboard, hv]
    | ok u =>
      by_cases hd : (demo && sk.getD false) = true
      · simp [handler, onboard, hv, hd]
      · cases ourl with
        | error e => simp [handler, onboard, hv, hd]
        | ok url => simp [handler, onboard, hv, hd]
  · intro h
    subst h
    simp [onboardingData]
  · intro h
    subst h
    simp [onboardingData]

/-- C1 (amended) witness: the concrete demo-mode skip request's first call is
the account update, and its payload is exactly the placeholder one with no
submitted name inside. -/
theorem C1_amended_witness :
    (handler envDemo
        { method := Method.POST
          body := { businessName := some "ACME Corp", skipOnboarding := some true } }).2.head? =
      some (StripeCall.accountUpdate "acct_123"
        (onboardingData true "ACME Corp" (some true) "user@example.com")) ∧
    (true = false →
      onboardingData true "ACME Corp" (some true) "user@example.com" =
        { business_profile := { name := some "ACME Corp" } }) ∧
    (true = true →
      onboardingData true "ACME Corp" (some true) "user@example.com" =
        { business_profile := demoBusinessProfile
          business_type := some "individual"
          individual := some (demoIndividual "user@example.com")
          tos_acceptance :=
            if (some true).getD false then some TOS_ACCEPTANCE else none
          settings := some demoSettings }) :=
  C1_amended_payload envDemo
    { method := Method.POST
      body := { businessName := some "ACME Corp", skipOnboarding := some true } }
    sampleSession "ACME Corp" rfl rfl rfl (by decide)
